import Mathlib

/-!
Verification of the scoring / size-compatibility engine of the
Hugging-Face-CLI repository (`src/scorer.py`, `src/url.py`).

Embedding conventions:
* Python floats are modelled as `ℚ` (all scoring arithmetic is exact decimal
  arithmetic; `round(x, 2)` is modelled as `⌊100 x + 1/2⌋ / 100`, which agrees
  with Python's 2-decimal rounding away from exact half-cent ties).
* Python ints from the JSON metadata are modelled as `ℤ`.
* The regular expressions of the source are embedded by a small
  character-class regular-expression engine with Brzozowski derivatives.
  `re.match(p, s)` is truthy iff some prefix of `s` is in the language of
  `p` (`RE.pmatch`); `re.search` with the patterns of `scorer.py` (a literal
  head followed by a greedy captured group, with nothing after the group)
  returns, at the leftmost position where the literal head occurs and the
  group can match, the longest prefix of the remainder in the group's
  language (`searchGroup`).  Python's `\w` is modelled as the ASCII word
  characters `[A-Za-z0-9_]`; the non-ASCII word characters accepted by
  Python's Unicode `\w` play no role in any claim.
* The two effectful collaborators of `scorer.py` (`make_request`, i.e. the
  network, whose result feeds the metadata branch, and nothing else) are
  passed as explicit `Option`-valued arguments: `none` models a falsy
  (`if not data`) response.  Everything else, including the URL parsing and
  `estimate_model_size`, is computed exactly as in the source.
* All functions are total, which models the source's property that no
  exception escapes the scorer (`make_request` swallows its exceptions and
  the remaining code is straight-line).
-/

/-- Character-class regular expressions: empty language, empty word, a
single character satisfying a Boolean class, alternation, concatenation,
Kleene star. -/
inductive RE where
  | emp : RE
  | eps : RE
  | cls : (Char → Bool) → RE
  | alt : RE → RE → RE
  | cat : RE → RE → RE
  | star : RE → RE

/-- Whether the empty word is in the language. -/
def RE.nullable : RE → Bool
  | .emp => false
  | .eps => true
  | .cls _ => false
  | .alt a b => a.nullable || b.nullable
  | .cat a b => a.nullable && b.nullable
  | .star _ => true

/-- Brzozowski derivative by one character. -/
def RE.deriv : RE → Char → RE
  | .emp, _ => .emp
  | .eps, _ => .emp
  | .cls p, c => if p c then .eps else .emp
  | .alt a b, c => .alt (a.deriv c) (b.deriv c)
  | .cat a b, c =>
    if a.nullable then .alt (.cat (a.deriv c) b) (b.deriv c)
    else .cat (a.deriv c) b
  | .star a, c => .cat (a.deriv c) (.star a)

/-- Whole-word matching via iterated derivatives. -/
def RE.rmatch : RE → List Char → Bool
  | r, [] => r.nullable
  | r, c :: s => (r.deriv c).rmatch s

/-- Language semantics of a regular expression. -/
inductive RE.Matches : RE → List Char → Prop where
  | eps : RE.Matches .eps []
  | cls {p : Char → Bool} {c : Char} : p c = true → RE.Matches (.cls p) [c]
  | altL {a b : RE} {s : List Char} : RE.Matches a s → RE.Matches (.alt a b) s
  | altR {a b : RE} {s : List Char} : RE.Matches b s → RE.Matches (.alt a b) s
  | cat {a b : RE} {s t : List Char} :
      RE.Matches a s → RE.Matches b t → RE.Matches (.cat a b) (s ++ t)
  | starNil {a : RE} : RE.Matches (.star a) []
  | starCons {a : RE} {s t : List Char} :
      RE.Matches a s → RE.Matches (.star a) t → RE.Matches (.star a) (s ++ t)

/-- Truthiness of `re.match(p, s)`: some prefix of `s` is in the language. -/
def RE.pmatch (r : RE) (s : List Char) : Bool :=
  (List.range (s.length + 1)).any fun n => r.rmatch (s.take n)

/-- A literal string, as a regular expression. -/
def litRE : List Char → RE
  | [] => .eps
  | c :: cs => .cat (.cls (· == c)) (litRE cs)

/-- ASCII word character, the `\w` class of the source's patterns. -/
def isWordChar (c : Char) : Bool := c.isAlphanum || c == '_'

/-- The class `\w`. -/
def wordRE : RE := .cls isWordChar

/-- `r+` -/
def plusRE (r : RE) : RE := .cat r (.star r)

/-- `r?` -/
def optRE (r : RE) : RE := .alt .eps r

/-- The class `/`. -/
def slashRE : RE := .cls (· == '/')

/-- `(\w+/?)+`, the tail of the three patterns of `url.py` and the captured
group of the dataset pattern of `scorer.py`. -/
def bodyRE : RE := plusRE (.cat (plusRE wordRE) (optRE slashRE))

/-- An unescaped `.` in a pattern: any character except newline. -/
def anyCharRE : RE := .cls (· != '\n')

/-- The class `[^/]`. -/
def nonSlashRE : RE := .cls (· != '/')

/-- `[^/]+/[^/]+`, the captured part of the model and code patterns of
`scorer.py` (for the code pattern, the concatenation of its two groups). -/
def pairRE : RE := .cat (plusRE nonSlashRE) (.cat slashRE (plusRE nonSlashRE))

/-- `url.py`: `datasetRegex = https:\/\/huggingface\.co\/datasets\/(\w+\/?)+` -/
def datasetRegex : RE := .cat (litRE "https://huggingface.co/datasets/".data) bodyRE

/-- `url.py`: `modelRegex = https:\/\/huggingface\.co\/(\w+\/?)+` -/
def modelRegex : RE := .cat (litRE "https://huggingface.co/".data) bodyRE

/-- `url.py`: `codeRegex = https:\/\/github.com\/(\w+\/?)+` (the dot before
`com` is unescaped in the source, hence `anyCharRE`). -/
def codeRegex : RE :=
  .cat (litRE "https://github".data) (.cat anyCharRE (.cat (litRE "com/".data) bodyRE))

/-- `url.py`: the `UrlCategory` enumeration. -/
inductive UrlCategory where
  | DATASET : UrlCategory
  | MODEL : UrlCategory
  | CODE : UrlCategory
  | INVALID : UrlCategory
deriving DecidableEq

/-- `url.py`: `determine_category`, testing the three patterns with
`re.match` in order dataset, model, code. -/
def determine_category (link : String) : UrlCategory :=
  if datasetRegex.pmatch link.data then .DATASET
  else if modelRegex.pmatch link.data then .MODEL
  else if codeRegex.pmatch link.data then .CODE
  else .INVALID

/-- The longest prefix of `s` in the language of `r`, if any: the greedy
match of `r` at a fixed position when nothing follows `r` in the pattern. -/
def longestPrefixMatch (r : RE) (s : List Char) : Option (List Char) :=
  ((List.range (s.length + 1)).reverse.find? fun n => r.rmatch (s.take n)).map
    fun n => s.take n

/-- `re.search` for the `scorer.py` patterns `lit(group)` (a literal head
`litL`, then a single greedy captured group `body`, end of pattern):
scan positions left to right; at the first position where the literal head
occurs and the group can match, return the group's greedy (longest) match.
Returns the captured text, `none` when the pattern matches nowhere. -/
def searchGroup (litL : List Char) (body : RE) : List Char → Option (List Char)
  | [] => none
  | s@(_ :: t) =>
    if litL.isPrefixOf s then
      match longestPrefixMatch body (s.drop litL.length) with
      | some m => some m
      | none => searchGroup litL body t
    else searchGroup litL body t

/-- Literal head of the dataset pattern of `scorer.py` line 302. -/
def DS_SEARCH_LIT : List Char := "https://huggingface.co/datasets/".data

/-- Literal head of the model pattern of `scorer.py` line 373. -/
def MODEL_SEARCH_LIT : List Char := "https://huggingface.co/".data

/-- Literal head of the code pattern of `scorer.py` line 448. -/
def CODE_SEARCH_LIT : List Char := "https://github.com/".data

/-- A value of the loosely typed `details` dictionary of a `ScoreResult`. -/
inductive DVal where
  | str : String → DVal
  | int : ℤ → DVal
  | bool : Bool → DVal
  | optStr : Option String → DVal
  | sizeMap : List (String × ℚ) → DVal
deriving DecidableEq

/-- `scorer.py`: the `ScoreResult` dataclass.  `details` is an insertion
ordered string-keyed dictionary, modelled as an association list. -/
structure ScoreResult where
  url : String
  category : UrlCategory
  score : ℚ
  max_score : ℚ
  details : List (String × DVal)
deriving DecidableEq

/-- `scorer.py` lines 34-37: the `percentage` property. -/
def ScoreResult.percentage (r : ScoreResult) : ℚ :=
  if r.max_score > 0 then r.score / r.max_score * 100 else 0

/-- Python's `round(q, 2)` on the exact rational value. -/
def round2 (q : ℚ) : ℚ := (⌊100 * q + 1/2⌋ : ℚ) / 100

/-- `scorer.py` lines 66-74: the hardware capacity thresholds, in MB,
as `(name, min, max)` in insertion order. -/
def thresholds : List (String × ℚ × ℚ) :=
  [("raspberry_pi", 0, 200), ("jetson_nano", 0, 500),
   ("desktop_pc", 0, 5000), ("aws_server", 0, 50000)]

/-- `scorer.py` lines 79-90: the loop body of `calculate_size_score` for one
hardware class with thresholds `(lo, hi)`, before rounding. -/
def sizeEntry (lo hi model_size_mb : ℚ) : ℚ :=
  if model_size_mb ≤ lo then 1
  else if model_size_mb ≥ hi then 0
  else max 0 (1 - (model_size_mb - lo) / (hi - lo))

/-- `scorer.py` lines 55-94: `calculate_size_score`. -/
def calculate_size_score (model_size_mb : ℚ) : List (String × ℚ) :=
  thresholds.map fun t => (t.1, round2 (sizeEntry t.2.1 t.2.2 model_size_mb))

/-- `scorer.py` lines 110-118: the analysis record returned by
`analyze_model_repository`. -/
structure Analysis where
  total_size_mb : ℚ
  weights_size_mb : ℚ
  config_info : List (String × String)
  has_tokenizer : Bool
  architecture : String
  model_files : List String
  error : Option String
deriving DecidableEq

/-- `scorer.py` lines 97-157: `analyze_model_repository`.  The entire
cloning and analysis block (lines 120-155) is commented out in the source,
so the function always returns the initial record: total size `0.0` and no
error. -/
def analyze_model_repository (model_name model_type : String) : Analysis :=
  { total_size_mb := 0
    weights_size_mb := 0
    config_info := []
    has_tokenizer := false
    architecture := "unknown"
    model_files := []
    error := none }

/-- `scorer.py` lines 291-296: the branch of `estimate_model_size` that
consumes an analysis record. -/
def estimate_from_analysis (analysis : Analysis) : ℚ :=
  if analysis.error = none then analysis.total_size_mb else 1000

/-- `scorer.py` lines 272-296: `estimate_model_size`.  `not model_name`
is Python falsiness of a string, i.e. emptiness. -/
def estimate_model_size (model_name : String) (model_type : String) : ℚ :=
  if model_name = "" ∨ model_name = "unknown" then 500
  else estimate_from_analysis (analyze_model_repository model_name model_type)

/-- Metadata consumed by `score_dataset` (lines 331-333): `downloads` and
`likes` default to 0; `description` is the truthiness of the field. -/
structure DatasetMeta where
  downloads : ℤ
  likes : ℤ
  description : Bool
deriving DecidableEq

/-- Metadata consumed by `score_model` (lines 401-404): `cardData` is the
truthiness of the field, `pipeline_tag` the raw optional string. -/
structure ModelMeta where
  downloads : ℤ
  likes : ℤ
  cardData : Bool
  pipeline_tag : Option String
deriving DecidableEq

/-- Metadata consumed by `score_code` (lines 476-480). -/
structure CodeMeta where
  stargazers_count : ℤ
  forks_count : ℤ
  description : Bool
  license : Bool
  language : Option String
deriving DecidableEq

/-- Python truthiness of an optional string (`if pipeline_tag:`,
`if language:`): present and non-empty. -/
def optStrTruthy : Option String → Bool
  | none => false
  | some s => !s.isEmpty

/-- `scorer.py` lines 335-349: the tier accumulation of `score_dataset`. -/
def dataset_points (downloads likes : ℤ) (has_description : Bool) : ℚ :=
  let s0 : ℚ := 2
  let s1 := if downloads > 10000 then s0 + 3
            else if downloads > 1000 then s0 + 2
            else if downloads > 100 then s0 + 1
            else s0
  let s2 := if likes > 50 then s1 + 2
            else if likes > 10 then s1 + 1
            else s1
  if has_description then s2 + 2 else s2

/-- `scorer.py` lines 406-423: the tier accumulation of `score_model`. -/
def model_points (downloads likes : ℤ) (has_card : Bool) (pipeline_tag : Option String) : ℚ :=
  let s0 : ℚ := 2
  let s1 := if downloads > 100000 then s0 + 3
            else if downloads > 10000 then s0 + 2
            else if downloads > 1000 then s0 + 1
            else s0
  let s2 := if likes > 100 then s1 + 2
            else if likes > 20 then s1 + 1
            else s1
  let s3 := if has_card then s2 + 2 else s2
  if optStrTruthy pipeline_tag then s3 + 1 else s3

/-- `scorer.py` lines 482-502: the tier accumulation of `score_code`. -/
def code_points (stars forks : ℤ) (has_description has_license : Bool)
    (language : Option String) : ℚ :=
  let s0 : ℚ := 2
  let s1 := if stars > 1000 then s0 + 3
            else if stars > 100 then s0 + 2
            else if stars > 10 then s0 + 1
            else s0
  let s2 := if forks > 100 then s1 + 1
            else if forks > 10 then s1 + 1/2
            else s1
  let s3 := if has_description then s2 + 2 else s2
  let s4 := if has_license then s3 + 1 else s3
  if optStrTruthy language then s4 + 1 else s4

/-- `scorer.py` lines 299-367: `score_dataset`.  `data` is the result of
`make_request` on the dataset API, `none` for a falsy response. -/
def score_dataset (url : String) (data : Option DatasetMeta) : ScoreResult :=
  match searchGroup DS_SEARCH_LIT bodyRE url.data with
  | none =>
    let estimated_size := estimate_model_size "unknown" "dataset"
    let size_score := calculate_size_score estimated_size
    ⟨url, .DATASET, 0, 10,
      [("error", .str "Invalid URL"), ("name", .str "unknown"),
       ("size_score", .sizeMap size_score)]⟩
  | some nameL =>
    let dataset_name : String := String.mk nameL
    match data with
    | none =>
      let estimated_size := estimate_model_size dataset_name "dataset"
      let size_score := calculate_size_score estimated_size
      ⟨url, .DATASET, 0, 10,
        [("name", .str dataset_name), ("fallback", .bool true),
         ("size_score", .sizeMap size_score)]⟩
    | some d =>
      let score := dataset_points d.downloads d.likes d.description
      let estimated_size := estimate_model_size dataset_name "dataset"
      let size_score := calculate_size_score estimated_size
      ⟨url, .DATASET, min score 10, 10,
        [("name", .str dataset_name), ("downloads", .int d.downloads),
         ("likes", .int d.likes), ("has_description", .bool d.description),
         ("size_score", .sizeMap size_score)]⟩

/-- `scorer.py` lines 370-442: `score_model`. -/
def score_model (url : String) (data : Option ModelMeta) : ScoreResult :=
  match searchGroup MODEL_SEARCH_LIT pairRE url.data with
  | none =>
    let estimated_size := estimate_model_size "unknown" "model"
    let size_score := calculate_size_score estimated_size
    ⟨url, .MODEL, 0, 10,
      [("error", .str "Invalid URL"), ("name", .str "unknown"),
       ("size_score", .sizeMap size_score)]⟩
  | some nameL =>
    let model_name : String := String.mk nameL
    match data with
    | none =>
      let estimated_size := estimate_model_size model_name "model"
      let size_score := calculate_size_score estimated_size
      ⟨url, .MODEL, 2, 10,
        [("name", .str model_name), ("fallback", .bool true),
         ("size_score", .sizeMap size_score)]⟩
    | some d =>
      let score := model_points d.downloads d.likes d.cardData d.pipeline_tag
      let estimated_size := estimate_model_size model_name "model"
      let size_score := calculate_size_score estimated_size
      ⟨url, .MODEL, min score 10, 10,
        [("name", .str model_name), ("downloads", .int d.downloads),
         ("likes", .int d.likes), ("has_model_card", .bool d.cardData),
         ("pipeline_tag", .optStr d.pipeline_tag),
         ("size_score", .sizeMap size_score)]⟩

/-- `scorer.py` lines 445-522: `score_code`.  The two captured groups
`owner` and `repo` are only ever used as `f"{owner}/{repo}"`, which is
exactly the text matched by `([^/]+)/([^/]+)`, so the embedding keeps the
concatenated capture. -/
def score_code (url : String) (data : Option CodeMeta) : ScoreResult :=
  match searchGroup CODE_SEARCH_LIT pairRE url.data with
  | none =>
    let estimated_size := estimate_model_size "unknown" "code"
    let size_score := calculate_size_score estimated_size
    ⟨url, .CODE, 0, 10,
      [("error", .str "Invalid URL"), ("name", .str "unknown"),
       ("size_score", .sizeMap size_score)]⟩
  | some nameL =>
    let repo_name : String := String.mk nameL
    match data with
    | none =>
      let estimated_size := estimate_model_size repo_name "code"
      let size_score := calculate_size_score estimated_size
      ⟨url, .CODE, 2, 10,
        [("name", .str repo_name), ("fallback", .bool true),
         ("size_score", .sizeMap size_score)]⟩
    | some d =>
      let score := code_points d.stargazers_count d.forks_count d.description
        d.license d.language
      let estimated_size := estimate_model_size repo_name "code"
      let size_score := calculate_size_score estimated_size
      ⟨url, .CODE, min score 10, 10,
        [("name", .str repo_name), ("stars", .int d.stargazers_count),
         ("forks", .int d.forks_count), ("has_description", .bool d.description),
         ("has_license", .bool d.license), ("language", .optStr d.language),
         ("size_score", .sizeMap size_score)]⟩

/-- `scorer.py` lines 525-542: `score_url`, dispatching on the category.
The three `Option` arguments are the `make_request` outcomes that the
selected branch would consume. -/
def score_url (url : String) (category : UrlCategory)
    (dsData : Option DatasetMeta) (mdData : Option ModelMeta)
    (cdData : Option CodeMeta) : ScoreResult :=
  match category with
  | .DATASET => score_dataset url dsData
  | .MODEL => score_model url mdData
  | .CODE => score_code url cdData
  | .INVALID =>
    let estimated_size := estimate_model_size "unknown" "invalid"
    let size_score := calculate_size_score estimated_size
    ⟨url, .INVALID, 0, 10,
      [("error", .str "Invalid category"), ("name", .str "unknown"),
       ("size_score", .sizeMap size_score)]⟩

/-- A nonempty word never results from a match witnessing nullability. -/
theorem RE.matches_nil_nullable {r : RE} {s : List Char}
    (h : RE.Matches r s) (hs : s = []) : r.nullable = true := by
  induction h with
  | eps => rfl
  | cls _ => simp at hs
  | altL _ ih => simp [RE.nullable, ih hs]
  | altR _ ih => simp [RE.nullable, ih hs]
  | cat _ _ ih1 ih2 =>
    rcases List.append_eq_nil.mp hs with ⟨h1, h2⟩
    simp [RE.nullable, ih1 h1, ih2 h2]
  | starNil => rfl
  | starCons => rfl

/-- Nullability is sound: the empty word is matched. -/
theorem RE.nullable_matches {r : RE} (h : r.nullable = true) : RE.Matches r [] := by
  induction r with
  | emp => simp [RE.nullable] at h
  | eps => exact .eps
  | cls p => simp [RE.nullable] at h
  | alt a b iha ihb =>
    rcases Bool.or_eq_true_iff.mp h with h' | h'
    · exact .altL (iha h')
    · exact .altR (ihb h')
  | cat a b iha ihb =>
    rcases Bool.and_eq_true_iff.mp h with ⟨h1, h2⟩
    simpa using RE.Matches.cat (iha h1) (ihb h2)
  | star a _ => exact .starNil

/-- Soundness of the derivative. -/
theorem RE.deriv_sound {r : RE} {c : Char} {s : List Char}
    (h : RE.Matches (r.deriv c) s) : RE.Matches r (c :: s) := by
  induction r generalizing s with
  | emp => simp only [RE.deriv] at h; cases h
  | eps => simp only [RE.deriv] at h; cases h
  | cls p =>
    simp only [RE.deriv] at h
    cases hp : p c with
    | false => rw [hp] at h; simp at h; cases h
    | true => rw [hp] at h; simp at h; cases h; exact .cls hp
  | alt a b iha ihb =>
    simp only [RE.deriv] at h
    cases h with
    | altL h' => exact .altL (iha h')
    | altR h' => exact .altR (ihb h')
  | cat a b iha ihb =>
    simp only [RE.deriv] at h
    cases hn : a.nullable with
    | false =>
      rw [hn] at h
      simp at h
      cases h with
      | cat h1 h2 => simpa using RE.Matches.cat (iha h1) h2
    | true =>
      rw [hn] at h
      simp at h
      cases h with
      | altL h' =>
        cases h' with
        | cat h1 h2 => simpa using RE.Matches.cat (iha h1) h2
      | altR h' =>
        simpa using RE.Matches.cat (RE.nullable_matches hn) (ihb h')
  | star a iha =>
    simp only [RE.deriv] at h
    cases h with
    | cat h1 h2 => simpa using RE.Matches.starCons (iha h1) h2

/-- Completeness of the derivative. -/
theorem RE.deriv_complete {r : RE} {u : List Char} (h : RE.Matches r u) :
    ∀ {c : Char} {s : List Char}, u = c :: s → RE.Matches (r.deriv c) s := by
  induction h with
  | eps => intro c s hu; simp at hu
  | @cls p c0 hp =>
    intro c s hu
    cases hu
    simp only [RE.deriv, hp, if_pos]
    exact .eps
  | @altL a b t _ ih =>
    intro c s hu
    simp only [RE.deriv]
    exact .altL (ih hu)
  | @altR a b t _ ih =>
    intro c s hu
    simp only [RE.deriv]
    exact .altR (ih hu)
  | @cat a b s1 s2 h1 h2 ih1 ih2 =>
    intro c s hu
    simp only [RE.deriv]
    cases s1 with
    | nil =>
      simp only [List.nil_append] at hu
      have hn : a.nullable = true := RE.matches_nil_nullable h1 rfl
      rw [hn]
      simp only [if_pos]
      exact .altR (ih2 hu)
    | cons c1 s1' =>
      rw [List.cons_append] at hu
      cases hu
      have ha := ih1 rfl
      cases hn : a.nullable with
      | false => simpa [hn] using RE.Matches.cat ha h2
      | true => simpa using RE.Matches.altL (RE.Matches.cat ha h2)
  | starNil => intro c s hu; simp at hu
  | @starCons a s1 s2 h1 h2 ih1 ih2 =>
    intro c s hu
    simp only [RE.deriv]
    cases s1 with
    | nil =>
      simp only [List.nil_append] at hu
      have := ih2 hu
      simpa [RE.deriv] using this
    | cons c1 s1' =>
      rw [List.cons_append] at hu
      cases hu
      exact RE.Matches.cat (ih1 rfl) h2

/-- The derivative matcher decides the language semantics. -/
theorem RE.rmatch_iff (r : RE) (s : List Char) :
    r.rmatch s = true ↔ RE.Matches r s := by
  induction s generalizing r with
  | nil =>
    simp only [RE.rmatch]
    exact ⟨RE.nullable_matches, fun h => RE.matches_nil_nullable h rfl⟩
  | cons c s ih =>
    simp only [RE.rmatch]
    rw [ih]
    exact ⟨RE.deriv_sound, fun h => RE.deriv_complete h rfl⟩

/-- The language of a literal is that literal alone. -/
theorem litRE_matches {L s : List Char} : RE.Matches (litRE L) s ↔ s = L := by
  induction L generalizing s with
  | nil =>
    constructor
    · intro h; cases h; rfl
    · intro h; subst h; exact .eps
  | cons c cs ih =>
    constructor
    · intro h
      cases h with
      | @cat _ _ s1 s2 h1 h2 =>
        cases h1 with
        | cls hp =>
          simp only [beq_iff_eq] at hp
          subst hp
          simp [ih.mp h2]
    · intro h
      subst h
      have h1 : RE.Matches (.cls (· == c)) [c] := .cls (by simp)
      have h2 : RE.Matches (litRE cs) cs := ih.mpr rfl
      simpa using RE.Matches.cat h1 h2

/-- Splitting a match of a literal-headed concatenation. -/
theorem cat_lit_inv {L : List Char} {b : RE} {s : List Char}
    (h : RE.Matches (.cat (litRE L) b) s) : ∃ q, s = L ++ q ∧ RE.Matches b q := by
  cases h with
  | @cat _ _ s1 s2 h1 h2 =>
    have hs1 := litRE_matches.mp h1
    subst hs1
    exact ⟨s2, rfl, h2⟩

/-- A `(\w+/?)+` match stays one when `datasets/` is prepended: `datasets`
is a word-character run and the slash is the optional separator, so the
prepended text is one more iteration of the group. -/
theorem bodyRE_prepend {q : List Char} (h : RE.Matches bodyRE q) :
    RE.Matches bodyRE (("datasets/").data ++ q) := by
  cases h with
  | @cat _ _ q1 q2 h1 h2 =>
    have hu : RE.Matches (.cat (plusRE wordRE) (optRE slashRE)) (("datasets/").data) :=
      (RE.rmatch_iff _ _).mp (by decide)
    have hs : RE.Matches (.star (.cat (plusRE wordRE) (optRE slashRE))) (q1 ++ q2) :=
      RE.Matches.starCons h1 h2
    exact RE.Matches.cat hu hs

/-- Language inclusion behind the precedence requirement of `url.py`: every
word of the dataset pattern is a word of the model pattern. -/
theorem dataset_matches_model {p : List Char} (h : RE.Matches datasetRegex p) :
    RE.Matches modelRegex p := by
  obtain ⟨q, hp, hq⟩ := cat_lit_inv h
  subst hp
  have h2 : ("https://huggingface.co/datasets/").data =
      ("https://huggingface.co/").data ++ ("datasets/").data := by decide
  rw [h2, List.append_assoc]
  exact RE.Matches.cat (litRE_matches.mpr rfl) (bodyRE_prepend hq)

/-- `re.match` inclusion: a string the dataset pattern accepts is also
accepted by the model pattern. -/
theorem pmatch_dataset_model {s : List Char} (h : datasetRegex.pmatch s = true) :
    modelRegex.pmatch s = true := by
  unfold RE.pmatch at h ⊢
  rw [List.any_eq_true] at h ⊢
  obtain ⟨n, hn, hr⟩ := h
  exact ⟨n, hn, (RE.rmatch_iff _ _).mpr (dataset_matches_model ((RE.rmatch_iff _ _).mp hr))⟩

/-- Claim C10: `determine_category` tests its patterns in the precedence
order dataset, model, code, invalid; every URL string accepted by the
dataset pattern is also accepted by the model pattern (so the precedence is
load-bearing), and such a URL is classified `DATASET`, never `MODEL`; the
inclusion is strict, witnessed by a URL the model pattern accepts and the
dataset pattern rejects. -/
theorem determine_category_dataset_precedence (s : String)
    (h : datasetRegex.pmatch s.data = true) :
    modelRegex.pmatch s.data = true ∧
    determine_category s = UrlCategory.DATASET ∧
    determine_category s ≠ UrlCategory.MODEL ∧
    modelRegex.pmatch ("https://huggingface.co/gpt2").data = true ∧
    datasetRegex.pmatch ("https://huggingface.co/gpt2").data = false := by
  refine ⟨pmatch_dataset_model h, ?_, ?_, by decide, by decide⟩ <;>
    simp [determine_category, h]

/-- Witness for C10 at a concrete dataset URL. -/
theorem determine_category_dataset_precedence_witness :
    modelRegex.pmatch ("https://huggingface.co/datasets/squad").data = true ∧
    determine_category "https://huggingface.co/datasets/squad" = UrlCategory.DATASET ∧
    determine_category "https://huggingface.co/datasets/squad" ≠ UrlCategory.MODEL ∧
    modelRegex.pmatch ("https://huggingface.co/gpt2").data = true ∧
    datasetRegex.pmatch ("https://huggingface.co/gpt2").data = false :=
  determine_category_dataset_precedence "https://huggingface.co/datasets/squad" (by decide)

/-- Two-decimal rounding is monotone. -/
theorem round2_mono {a b : ℚ} (h : a ≤ b) : round2 a ≤ round2 b := by
  unfold round2
  have hf : (⌊100 * a + 1/2⌋ : ℤ) ≤ ⌊100 * b + 1/2⌋ := Int.floor_mono (by linarith)
  have h2 : ((⌊100 * a + 1/2⌋ : ℤ) : ℚ) ≤ ((⌊100 * b + 1/2⌋ : ℤ) : ℚ) := by
    exact_mod_cast hf
  linarith

/-- The per-class fitness before rounding is antitone in the size. -/
theorem sizeEntry_anti {lo hi : ℚ} (hlh : lo < hi) {s1 s2 : ℚ} (h : s1 ≤ s2) :
    sizeEntry lo hi s2 ≤ sizeEntry lo hi s1 := by
  unfold sizeEntry
  have hd : 0 < hi - lo := by linarith
  split_ifs <;> try linarith
  · exact le_max_left _ _
  · apply max_le (by norm_num)
    have hx : 0 ≤ (s2 - lo) / (hi - lo) := div_nonneg (by linarith) (le_of_lt hd)
    linarith
  · refine max_le_max (le_refl 0) ?_
    have hx : (s1 - lo) / (hi - lo) ≤ (s2 - lo) / (hi - lo) :=
      (div_le_div_iff_of_pos_right hd).mpr (by linarith)
    linarith

/-- Claim C2: for every real size, `calculate_size_score` returns for each
of the four hardware classes (thresholds raspberry_pi (0, 200), jetson_nano
(0, 500), desktop_pc (0, 5000), aws_server (0, 50000)) the value 1.0 when
the size is at most the minimum, 0.0 when it is at least the maximum, and
otherwise `max 0 (1 - (size - min) / (max - min))`, rounded to 2 decimal
places; the raspberry_pi fitness at 100 is 0.5 and at 20 is 0.9, and every
class fitness is 1.0 for all sizes at most 0. -/
theorem calculate_size_score_spec :
    (∀ s : ℚ, calculate_size_score s =
      [("raspberry_pi", round2 (if s ≤ 0 then 1 else if s ≥ 200 then 0
          else max 0 (1 - (s - 0) / (200 - 0)))),
       ("jetson_nano", round2 (if s ≤ 0 then 1 else if s ≥ 500 then 0
          else max 0 (1 - (s - 0) / (500 - 0)))),
       ("desktop_pc", round2 (if s ≤ 0 then 1 else if s ≥ 5000 then 0
          else max 0 (1 - (s - 0) / (5000 - 0)))),
       ("aws_server", round2 (if s ≤ 0 then 1 else if s ≥ 50000 then 0
          else max 0 (1 - (s - 0) / (50000 - 0))))]) ∧
    (calculate_size_score 100).lookup "raspberry_pi" = some (1/2) ∧
    (calculate_size_score 20).lookup "raspberry_pi" = some (9/10) ∧
    (∀ s : ℚ, s ≤ 0 → calculate_size_score s =
      [("raspberry_pi", 1), ("jetson_nano", 1), ("desktop_pc", 1), ("aws_server", 1)]) := by
  have hone : round2 1 = 1 := by norm_num [round2]
  refine ⟨fun s => rfl, ?_, ?_, fun s hs => ?_⟩
  · norm_num [calculate_size_score, thresholds, sizeEntry, round2, List.lookup]
  · norm_num [calculate_size_score, thresholds, sizeEntry, round2, List.lookup]
  · simp [calculate_size_score, thresholds, sizeEntry, hs, hone]

/-- Witness for C2 at the concrete size -5. -/
theorem calculate_size_score_spec_witness :
    calculate_size_score (-5) =
      [("raspberry_pi", 1), ("jetson_nano", 1), ("desktop_pc", 1), ("aws_server", 1)] :=
  calculate_size_score_spec.2.2.2 (-5) (by norm_num)

/-- Claim C6: for each hardware class independently, the rounded fitness is
monotonically non-increasing in the size: same keys in the same order and,
entrywise, the fitness at the larger size is at most the fitness at the
smaller size. -/
theorem calculate_size_score_antitone (s1 s2 : ℚ) (h : s1 ≤ s2) :
    List.Forall₂ (fun p q => p.1 = q.1 ∧ q.2 ≤ p.2)
      (calculate_size_score s1) (calculate_size_score s2) := by
  simp only [calculate_size_score, thresholds, List.map]
  refine .cons ⟨rfl, ?_⟩ (.cons ⟨rfl, ?_⟩ (.cons ⟨rfl, ?_⟩ (.cons ⟨rfl, ?_⟩ .nil))) <;>
    exact round2_mono (sizeEntry_anti (by norm_num) h)

/-- Witness for C6 at sizes 100 and 300. -/
theorem calculate_size_score_antitone_witness :
    List.Forall₂ (fun p q => p.1 = q.1 ∧ q.2 ≤ p.2)
      (calculate_size_score 100) (calculate_size_score 300) :=
  calculate_size_score_antitone 100 300 (by norm_num)

/-- Claim C9: `percentage` is `100 * score / max_score` when `max_score` is
positive and `0` when `max_score` is `0`; it is a total function, so no
division error can be raised for any field values. -/
theorem percentage_spec (r : ScoreResult) :
    (r.max_score > 0 → r.percentage = 100 * r.score / r.max_score) ∧
    (r.max_score = 0 → r.percentage = 0) := by
  constructor
  · intro h
    rw [ScoreResult.percentage, if_pos h]
    ring
  · intro h
    rw [ScoreResult.percentage, if_neg]
    rw [h]
    exact lt_irrefl 0

/-- Witness for C9 at concrete results with `max_score` 10 and 0. -/
theorem percentage_spec_witness :
    ScoreResult.percentage ⟨"u", .MODEL, 5, 10, []⟩ = 100 * 5 / 10 ∧
    ScoreResult.percentage ⟨"u", .MODEL, 5, 0, []⟩ = 0 :=
  ⟨(percentage_spec ⟨"u", .MODEL, 5, 10, []⟩).1 (by norm_num),
   (percentage_spec ⟨"u", .MODEL, 5, 0, []⟩).2 rfl⟩

/-- The dataset tier accumulation never goes below the base score. -/
theorem dataset_points_nonneg (d l : ℤ) (hd : Bool) : 0 ≤ dataset_points d l hd := by
  simp only [dataset_points]
  split_ifs <;> norm_num

set_option maxHeartbeats 1000000 in
/-- The model tier accumulation never goes below the base score. -/
theorem model_points_nonneg (d l : ℤ) (hc : Bool) (pt : Option String) :
    0 ≤ model_points d l hc pt := by
  simp only [model_points]
  split_ifs <;> norm_num

set_option maxHeartbeats 1000000 in
/-- The code tier accumulation never goes below the base score. -/
theorem code_points_nonneg (st fk : ℤ) (hd hl : Bool) (lg : Option String) :
    0 ≤ code_points st fk hd hl lg := by
  simp only [code_points]
  split_ifs <;> norm_num

set_option maxHeartbeats 2000000 in
/-- Claim C1: in every category the metadata score is the base 2.0 plus one
additive bonus per metric, where only the highest applicable threshold tier
of each metric contributes, and the final score is the clamp
`min(total, 10.0)`; concretely, a dataset with downloads 15000, likes 60
and a description scores 9.0 and a model with downloads 500, likes 5, no
model card and no pipeline tag scores 2.0. -/
theorem scoring_tiers_spec :
    (∀ (d l : ℤ) (hd : Bool), dataset_points d l hd =
        2 + (if d > 10000 then 3 else if d > 1000 then 2 else if d > 100 then 1 else 0)
          + (if l > 50 then 2 else if l > 10 then 1 else 0)
          + (if hd then 2 else 0)) ∧
    (∀ (d l : ℤ) (hc : Bool) (pt : Option String), model_points d l hc pt =
        2 + (if d > 100000 then 3 else if d > 10000 then 2 else if d > 1000 then 1 else 0)
          + (if l > 100 then 2 else if l > 20 then 1 else 0)
          + (if hc then 2 else 0)
          + (if optStrTruthy pt then 1 else 0)) ∧
    (∀ (st fk : ℤ) (hd hl : Bool) (lg : Option String), code_points st fk hd hl lg =
        2 + (if st > 1000 then 3 else if st > 100 then 2 else if st > 10 then 1 else 0)
          + (if fk > 100 then 1 else if fk > 10 then 1/2 else 0)
          + (if hd then 2 else 0) + (if hl then 1 else 0)
          + (if optStrTruthy lg then 1 else 0)) ∧
    (∀ (url : String) (m : DatasetMeta) (n : List Char),
        searchGroup DS_SEARCH_LIT bodyRE url.data = some n →
        (score_dataset url (some m)).score =
          min (dataset_points m.downloads m.likes m.description) 10) ∧
    (∀ (url : String) (m : ModelMeta) (n : List Char),
        searchGroup MODEL_SEARCH_LIT pairRE url.data = some n →
        (score_model url (some m)).score =
          min (model_points m.downloads m.likes m.cardData m.pipeline_tag) 10) ∧
    (∀ (url : String) (m : CodeMeta) (n : List Char),
        searchGroup CODE_SEARCH_LIT pairRE url.data = some n →
        (score_code url (some m)).score =
          min (code_points m.stargazers_count m.forks_count m.description
            m.license m.language) 10) ∧
    (score_dataset "https://huggingface.co/datasets/squad"
      (some ⟨15000, 60, true⟩)).score = 9 ∧
    (score_model "https://huggingface.co/org/model1"
      (some ⟨500, 5, false, none⟩)).score = 2 := by
  refine ⟨fun d l hd => ?_, fun d l hc pt => ?_, fun st fk hd hl lg => ?_,
    fun url m n h => ?_, fun url m n h => ?_, fun url m n h => ?_, ?_, ?_⟩
  · simp only [dataset_points]
    split_ifs <;> norm_num
  · simp only [model_points]
    split_ifs <;> norm_num
  · simp only [code_points]
    split_ifs <;> norm_num
  · unfold score_dataset
    rw [h]
  · unfold score_model
    rw [h]
  · unfold score_code
    rw [h]
  · have hp : searchGroup DS_SEARCH_LIT bodyRE
        ("https://huggingface.co/datasets/squad").data = some ("squad").data := by decide
    unfold score_dataset
    rw [hp]
    norm_num [dataset_points]
  · have hp : searchGroup MODEL_SEARCH_LIT pairRE
        ("https://huggingface.co/org/model1").data = some ("org/model1").data := by decide
    unfold score_model
    rw [hp]
    norm_num [model_points, optStrTruthy]

set_option maxHeartbeats 2000000 in
/-- Witness for C1: the clamp components applied at concrete inputs. -/
theorem scoring_tiers_spec_witness :
    (score_dataset "https://huggingface.co/datasets/squad" (some ⟨15000, 60, true⟩)).score =
      min (dataset_points 15000 60 true) 10 ∧
    (score_model "https://huggingface.co/org/model1" (some ⟨500, 5, false, none⟩)).score =
      min (model_points 500 5 false none) 10 ∧
    (score_code "https://github.com/rbaker1776/repo1" (some ⟨2000, 500, true, true, some "C"⟩)).score =
      min (code_points 2000 500 true true (some "C")) 10 :=
  ⟨scoring_tiers_spec.2.2.2.1 _ ⟨15000, 60, true⟩ ("squad").data (by decide),
   scoring_tiers_spec.2.2.2.2.1 _ ⟨500, 5, false, none⟩ ("org/model1").data (by decide),
   scoring_tiers_spec.2.2.2.2.2.1 _ ⟨2000, 500, true, true, some "C"⟩
     ("rbaker1776/repo1").data (by decide)⟩

/-- Bounds for every branch of `score_dataset`. -/
theorem score_dataset_bounds (url : String) (d : Option DatasetMeta) :
    0 ≤ (score_dataset url d).score ∧ (score_dataset url d).score ≤ 10 ∧
    (score_dataset url d).max_score = 10 := by
  unfold score_dataset
  cases hp : searchGroup DS_SEARCH_LIT bodyRE url.data with
  | none => exact ⟨by norm_num, by norm_num, rfl⟩
  | some n =>
    cases d with
    | none => exact ⟨by norm_num, by norm_num, rfl⟩
    | some dm =>
      exact ⟨le_min (dataset_points_nonneg _ _ _) (by norm_num), min_le_right _ _, rfl⟩

/-- Bounds for every branch of `score_model`. -/
theorem score_model_bounds (url : String) (d : Option ModelMeta) :
    0 ≤ (score_model url d).score ∧ (score_model url d).score ≤ 10 ∧
    (score_model url d).max_score = 10 := by
  unfold score_model
  cases hp : searchGroup MODEL_SEARCH_LIT pairRE url.data with
  | none => exact ⟨by norm_num, by norm_num, rfl⟩
  | some n =>
    cases d with
    | none => exact ⟨by norm_num, by norm_num, rfl⟩
    | some dm =>
      exact ⟨le_min (model_points_nonneg _ _ _ _) (by norm_num), min_le_right _ _, rfl⟩

/-- Bounds for every branch of `score_code`. -/
theorem score_code_bounds (url : String) (d : Option CodeMeta) :
    0 ≤ (score_code url d).score ∧ (score_code url d).score ≤ 10 ∧
    (score_code url d).max_score = 10 := by
  unfold score_code
  cases hp : searchGroup CODE_SEARCH_LIT pairRE url.data with
  | none => exact ⟨by norm_num, by norm_num, rfl⟩
  | some n =>
    cases d with
    | none => exact ⟨by norm_num, by norm_num, rfl⟩
    | some dm =>
      exact ⟨le_min (code_points_nonneg _ _ _ _ _) (by norm_num), min_le_right _ _, rfl⟩

/-- Claim C3: every `ScoreResult` produced by `score_url`, for every
category and every metadata outcome, satisfies
`0 ≤ score ≤ max_score`, and `max_score` is exactly 10.0. -/
theorem score_url_bounds (url : String) (cat : UrlCategory)
    (d : Option DatasetMeta) (m : Option ModelMeta) (c : Option CodeMeta) :
    0 ≤ (score_url url cat d m c).score ∧
    (score_url url cat d m c).score ≤ (score_url url cat d m c).max_score ∧
    (score_url url cat d m c).max_score = 10 := by
  cases cat with
  | DATASET =>
    obtain ⟨h1, h2, h3⟩ := score_dataset_bounds url d
    exact ⟨h1, by rw [show (score_url url .DATASET d m c).max_score =
      (score_dataset url d).max_score from rfl, h3]; exact h2, h3⟩
  | MODEL =>
    obtain ⟨h1, h2, h3⟩ := score_model_bounds url m
    exact ⟨h1, by rw [show (score_url url .MODEL d m c).max_score =
      (score_model url m).max_score from rfl, h3]; exact h2, h3⟩
  | CODE =>
    obtain ⟨h1, h2, h3⟩ := score_code_bounds url c
    exact ⟨h1, by rw [show (score_url url .CODE d m c).max_score =
      (score_code url c).max_score from rfl, h3]; exact h2, h3⟩
  | INVALID => exact ⟨le_refl 0, (by norm_num : (0:ℚ) ≤ 10), rfl⟩

/-- A successful greedy match is in the group's language. -/
theorem longestPrefixMatch_rmatch {r : RE} {s m : List Char}
    (h : longestPrefixMatch r s = some m) : r.rmatch m = true := by
  unfold longestPrefixMatch at h
  rw [Option.map_eq_some'] at h
  obtain ⟨n, hfind, htake⟩ := h
  have := List.find?_some hfind
  rwa [htake] at this

/-- A successful capture of `searchGroup` is in the group's language. -/
theorem searchGroup_rmatch {litL : List Char} {body : RE} {s m : List Char}
    (h : searchGroup litL body s = some m) : body.rmatch m = true := by
  induction s with
  | nil => simp [searchGroup] at h
  | cons c t ih =>
    unfold searchGroup at h
    by_cases hp : litL.isPrefixOf (c :: t)
    · rw [if_pos hp] at h
      cases hl : longestPrefixMatch body ((c :: t).drop litL.length) with
      | some m2 =>
        rw [hl] at h
        have h2 : some m2 = some m := h
        injection h2 with h3
        subst h3
        exact longestPrefixMatch_rmatch hl
      | none =>
        rw [hl] at h
        exact ih h
    · rw [if_neg hp] at h
      exact ih h

/-- A captured group is nonempty whenever the group rejects the empty word. -/
theorem searchGroup_ne_nil {litL : List Char} {body : RE} {s m : List Char}
    (h : searchGroup litL body s = some m) (h0 : body.rmatch [] = false) :
    m ≠ [] := by
  intro hm
  subst hm
  simp [searchGroup_rmatch h] at h0

/-- Claim C4: whenever the identifying name parses but the metadata fetch
returns no data, the fallback result has score 0.0 for a dataset and 2.0
for a model and for code, max_score 10.0, `fallback: true` in the details,
and a size-fitness map still attached. -/
theorem fallback_scores (url : String) :
    (∀ n : List Char, searchGroup DS_SEARCH_LIT bodyRE url.data = some n →
      (score_dataset url none).score = 0 ∧ (score_dataset url none).max_score = 10 ∧
      ("fallback", DVal.bool true) ∈ (score_dataset url none).details ∧
      ∃ sm, ("size_score", DVal.sizeMap sm) ∈ (score_dataset url none).details) ∧
    (∀ n : List Char, searchGroup MODEL_SEARCH_LIT pairRE url.data = some n →
      (score_model url none).score = 2 ∧ (score_model url none).max_score = 10 ∧
      ("fallback", DVal.bool true) ∈ (score_model url none).details ∧
      ∃ sm, ("size_score", DVal.sizeMap sm) ∈ (score_model url none).details) ∧
    (∀ n : List Char, searchGroup CODE_SEARCH_LIT pairRE url.data = some n →
      (score_code url none).score = 2 ∧ (score_code url none).max_score = 10 ∧
      ("fallback", DVal.bool true) ∈ (score_code url none).details ∧
      ∃ sm, ("size_score", DVal.sizeMap sm) ∈ (score_code url none).details) := by
  refine ⟨fun n h => ?_, fun n h => ?_, fun n h => ?_⟩
  · unfold score_dataset
    rw [h]
    exact ⟨rfl, rfl, by simp,
      ⟨calculate_size_score (estimate_model_size (String.mk n) "dataset"), by simp⟩⟩
  · unfold score_model
    rw [h]
    exact ⟨rfl, rfl, by simp,
      ⟨calculate_size_score (estimate_model_size (String.mk n) "model"), by simp⟩⟩
  · unfold score_code
    rw [h]
    exact ⟨rfl, rfl, by simp,
      ⟨calculate_size_score (estimate_model_size (String.mk n) "code"), by simp⟩⟩

/-- Witness for C4 at concrete URLs whose names parse. -/
theorem fallback_scores_witness :
    (score_dataset "https://huggingface.co/datasets/squad" none).score = 0 ∧
    (score_model "https://huggingface.co/org/model1" none).score = 2 ∧
    (score_code "https://github.com/rbaker1776/repo1" none).score = 2 :=
  ⟨((fallback_scores "https://huggingface.co/datasets/squad").1
      ("squad").data (by decide)).1,
   ((fallback_scores "https://huggingface.co/org/model1").2.1
      ("org/model1").data (by decide)).1,
   ((fallback_scores "https://github.com/rbaker1776/repo1").2.2
      ("rbaker1776/repo1").data (by decide)).1⟩

/-- The size-fitness map always carries exactly the four hardware keys. -/
theorem calculate_size_score_keys (s : ℚ) :
    (calculate_size_score s).map Prod.fst =
      ["raspberry_pi", "jetson_nano", "desktop_pc", "aws_server"] := rfl

/-- Claim C5: when the identifying name cannot be parsed from the URL, and
likewise when an `Invalid` category is dispatched, the scorer returns score
0.0 and max_score 10.0 with an `error` entry in the details and a
size-fitness map over all four hardware classes computed from the default
size estimate for the name `unknown`; all scoring functions are total, so
no exception reaches the caller. -/
theorem unparsed_and_invalid_scores (url : String) (d : Option DatasetMeta)
    (m : Option ModelMeta) (c : Option CodeMeta) :
    (searchGroup DS_SEARCH_LIT bodyRE url.data = none →
      (score_dataset url d).score = 0 ∧ (score_dataset url d).max_score = 10 ∧
      ("error", DVal.str "Invalid URL") ∈ (score_dataset url d).details ∧
      ("size_score", DVal.sizeMap
        (calculate_size_score (estimate_model_size "unknown" "dataset"))) ∈
        (score_dataset url d).details ∧
      (calculate_size_score (estimate_model_size "unknown" "dataset")).map Prod.fst =
        ["raspberry_pi", "jetson_nano", "desktop_pc", "aws_server"]) ∧
    (searchGroup MODEL_SEARCH_LIT pairRE url.data = none →
      (score_model url m).score = 0 ∧ (score_model url m).max_score = 10 ∧
      ("error", DVal.str "Invalid URL") ∈ (score_model url m).details ∧
      ("size_score", DVal.sizeMap
        (calculate_size_score (estimate_model_size "unknown" "model"))) ∈
        (score_model url m).details) ∧
    (searchGroup CODE_SEARCH_LIT pairRE url.data = none →
      (score_code url c).score = 0 ∧ (score_code url c).max_score = 10 ∧
      ("error", DVal.str "Invalid URL") ∈ (score_code url c).details ∧
      ("size_score", DVal.sizeMap
        (calculate_size_score (estimate_model_size "unknown" "code"))) ∈
        (score_code url c).details) ∧
    ((score_url url .INVALID d m c).score = 0 ∧
      (score_url url .INVALID d m c).max_score = 10 ∧
      ("error", DVal.str "Invalid category") ∈ (score_url url .INVALID d m c).details ∧
      ("size_score", DVal.sizeMap
        (calculate_size_score (estimate_model_size "unknown" "invalid"))) ∈
        (score_url url .INVALID d m c).details) := by
  refine ⟨fun h => ?_, fun h => ?_, fun h => ?_, ?_⟩
  · unfold score_dataset
    rw [h]
    exact ⟨rfl, rfl, by simp, by simp, calculate_size_score_keys _⟩
  · unfold score_model
    rw [h]
    exact ⟨rfl, rfl, by simp, by simp⟩
  · unfold score_code
    rw [h]
    exact ⟨rfl, rfl, by simp, by simp⟩
  · exact ⟨rfl, rfl, by simp [score_url], by simp [score_url]⟩

/-- Witness for C5 at a concrete unparseable URL. -/
theorem unparsed_and_invalid_scores_witness :
    (score_dataset "notaurl" none).score = 0 ∧
    (score_model "notaurl" none).score = 0 ∧
    (score_code "notaurl" none).score = 0 :=
  ⟨((unparsed_and_invalid_scores "notaurl" none none none).1 (by decide)).1,
   ((unparsed_and_invalid_scores "notaurl" none none none).2.1 (by decide)).1,
   ((unparsed_and_invalid_scores "notaurl" none none none).2.2.1 (by decide)).1⟩

/-- A named artifact other than `unknown` gets size estimate 0.0, because
the repository analysis is disabled and reports size 0.0 with no error. -/
theorem estimate_named_zero {name : String} (h1 : name ≠ "") (h2 : name ≠ "unknown")
    (t : String) : estimate_model_size name t = 0 := by
  unfold estimate_model_size
  rw [if_neg (not_or.mpr ⟨h1, h2⟩)]
  rfl

/-- The size-fitness map at size 0 is 1.0 for all four hardware classes. -/
theorem calculate_size_score_at_zero :
    calculate_size_score 0 =
      [("raspberry_pi", 1), ("jetson_nano", 1), ("desktop_pc", 1), ("aws_server", 1)] := by
  norm_num [calculate_size_score, thresholds, sizeEntry, round2]

/-- Counterexample to C7 as stated: the URL
`https://huggingface.co/datasets/unknown` parses successfully (its captured
name is the literal `unknown`), yet the attached size-fitness map is the
one computed from the 500 MB default, whose raspberry_pi entry is 0.0, not
1.0. -/
theorem parsed_name_size_map_counterexample :
    searchGroup DS_SEARCH_LIT bodyRE
      ("https://huggingface.co/datasets/unknown").data = some ("unknown").data ∧
    (score_dataset "https://huggingface.co/datasets/unknown"
      (some ⟨15000, 60, true⟩)).details.lookup "size_score" =
      some (.sizeMap (calculate_size_score 500)) ∧
    (calculate_size_score 500).lookup "raspberry_pi" = some 0 ∧ (0 : ℚ) ≠ 1 := by
  have hp : searchGroup DS_SEARCH_LIT bodyRE
      ("https://huggingface.co/datasets/unknown").data = some ("unknown").data := by
    decide
  refine ⟨hp, ?_, ?_, by norm_num⟩
  · unfold score_dataset
    rw [hp]
    have he : estimate_model_size (String.mk ("unknown").data) "dataset" = 500 := by
      rw [estimate_model_size, if_pos (by decide)]
    simp only [he, List.lookup]
    simp
  · norm_num [calculate_size_score, thresholds, sizeEntry, round2, List.lookup]

/-- Claim C7 (amended): for every nonempty artifact name other than the
literal string `unknown`, `estimate_model_size` returns exactly 0.0 (the
disabled repository analysis always reports total size 0.0 and no error),
`estimate_model_size` only ever returns 500 or 0 — so the 1000 MB
failed-analysis branch is unreachable — and the size-fitness map attached
to every `ScoreResult` whose successfully parsed name is not the literal
`unknown` assigns 1.0 to all four hardware classes. -/
theorem parsed_name_size_map_amended :
    (∀ name t : String, name ≠ "" → name ≠ "unknown" → estimate_model_size name t = 0) ∧
    (∀ name t : String, estimate_model_size name t = 500 ∨ estimate_model_size name t = 0) ∧
    (∀ (url : String) (d : Option DatasetMeta) (n : List Char),
      searchGroup DS_SEARCH_LIT bodyRE url.data = some n → String.mk n ≠ "unknown" →
      ("size_score", DVal.sizeMap
        [("raspberry_pi", 1), ("jetson_nano", 1), ("desktop_pc", 1), ("aws_server", 1)]) ∈
        (score_dataset url d).details) ∧
    (∀ (url : String) (m : Option ModelMeta) (n : List Char),
      searchGroup MODEL_SEARCH_LIT pairRE url.data = some n → String.mk n ≠ "unknown" →
      ("size_score", DVal.sizeMap
        [("raspberry_pi", 1), ("jetson_nano", 1), ("desktop_pc", 1), ("aws_server", 1)]) ∈
        (score_model url m).details) ∧
    (∀ (url : String) (c : Option CodeMeta) (n : List Char),
      searchGroup CODE_SEARCH_LIT pairRE url.data = some n → String.mk n ≠ "unknown" →
      ("size_score", DVal.sizeMap
        [("raspberry_pi", 1), ("jetson_nano", 1), ("desktop_pc", 1), ("aws_server", 1)]) ∈
        (score_code url c).details) := by
  refine ⟨fun name t h1 h2 => estimate_named_zero h1 h2 t, fun name t => ?_,
    fun url d n h hne => ?_, fun url m n h hne => ?_, fun url c n h hne => ?_⟩
  · unfold estimate_model_size
    split_ifs with h
    · left; rfl
    · right; rfl
  · have hnil : n ≠ [] := searchGroup_ne_nil h (by decide)
    have hne' : String.mk n ≠ "" := fun he => hnil (congrArg String.data he)
    have hest := estimate_named_zero hne' hne "dataset"
    unfold score_dataset
    rw [h]
    cases d with
    | none => simp [hest, calculate_size_score_at_zero]
    | some dm => simp [hest, calculate_size_score_at_zero]
  · have hnil : n ≠ [] := searchGroup_ne_nil h (by decide)
    have hne' : String.mk n ≠ "" := fun he => hnil (congrArg String.data he)
    have hest := estimate_named_zero hne' hne "model"
    unfold score_model
    rw [h]
    cases m with
    | none => simp [hest, calculate_size_score_at_zero]
    | some dm => simp [hest, calculate_size_score_at_zero]
  · have hnil : n ≠ [] := searchGroup_ne_nil h (by decide)
    have hne' : String.mk n ≠ "" := fun he => hnil (congrArg String.data he)
    have hest := estimate_named_zero hne' hne "code"
    unfold score_code
    rw [h]
    cases c with
    | none => simp [hest, calculate_size_score_at_zero]
    | some dm => simp [hest, calculate_size_score_at_zero]

/-- Witness for the amended C7 at a concrete parsed dataset URL. -/
theorem parsed_name_size_map_amended_witness :
    estimate_model_size "google/gemma" "model" = 0 ∧
    ("size_score", DVal.sizeMap
      [("raspberry_pi", 1), ("jetson_nano", 1), ("desktop_pc", 1), ("aws_server", 1)]) ∈
      (score_dataset "https://huggingface.co/datasets/squad" none).details :=
  ⟨parsed_name_size_map_amended.1 "google/gemma" "model" (by decide) (by decide),
   parsed_name_size_map_amended.2.2.1 "https://huggingface.co/datasets/squad" none
     ("squad").data (by decide) (by decide)⟩

/-- `score_dataset` attaches a size-fitness map in every branch. -/
theorem score_dataset_has_size_map (url : String) (d : Option DatasetMeta) :
    ∃ sm, ("size_score", DVal.sizeMap sm) ∈ (score_dataset url d).details := by
  unfold score_dataset
  cases hp : searchGroup DS_SEARCH_LIT bodyRE url.data with
  | none => exact ⟨calculate_size_score (estimate_model_size "unknown" "dataset"), by simp⟩
  | some n =>
    cases d with
    | none =>
      exact ⟨calculate_size_score (estimate_model_size (String.mk n) "dataset"), by simp⟩
    | some dm =>
      exact ⟨calculate_size_score (estimate_model_size (String.mk n) "dataset"), by simp⟩

/-- `score_model` attaches a size-fitness map in every branch. -/
theorem score_model_has_size_map (url : String) (m : Option ModelMeta) :
    ∃ sm, ("size_score", DVal.sizeMap sm) ∈ (score_model url m).details := by
  unfold score_model
  cases hp : searchGroup MODEL_SEARCH_LIT pairRE url.data with
  | none => exact ⟨calculate_size_score (estimate_model_size "unknown" "model"), by simp⟩
  | some n =>
    cases m with
    | none =>
      exact ⟨calculate_size_score (estimate_model_size (String.mk n) "model"), by simp⟩
    | some dm =>
      exact ⟨calculate_size_score (estimate_model_size (String.mk n) "model"), by simp⟩

/-- `score_code` attaches a size-fitness map in every branch. -/
theorem score_code_has_size_map (url : String) (c : Option CodeMeta) :
    ∃ sm, ("size_score", DVal.sizeMap sm) ∈ (score_code url c).details := by
  unfold score_code
  cases hp : searchGroup CODE_SEARCH_LIT pairRE url.data with
  | none => exact ⟨calculate_size_score (estimate_model_size "unknown" "code"), by simp⟩
  | some n =>
    cases c with
    | none =>
      exact ⟨calculate_size_score (estimate_model_size (String.mk n) "code"), by simp⟩
    | some dm =>
      exact ⟨calculate_size_score (estimate_model_size (String.mk n) "code"), by simp⟩

/-- Claim C8: a size-fitness map is attached to the `ScoreResult` of every
branch of `score_url`, regardless of scoring success, and whenever the
size-estimation analysis reports a failure the consuming branch of
`estimate_model_size` uses the conservative 1000 MB default instead of
omitting the field. -/
theorem size_fitness_always_attached :
    (∀ a : Analysis, a.error ≠ none → estimate_from_analysis a = 1000) ∧
    (∀ (url : String) (cat : UrlCategory) (d : Option DatasetMeta)
        (m : Option ModelMeta) (c : Option CodeMeta),
      ∃ sm, ("size_score", DVal.sizeMap sm) ∈ (score_url url cat d m c).details) := by
  refine ⟨fun a ha => ?_, fun url cat d m c => ?_⟩
  · unfold estimate_from_analysis
    rw [if_neg ha]
  · cases cat with
    | DATASET => exact score_dataset_has_size_map url d
    | MODEL => exact score_model_has_size_map url m
    | CODE => exact score_code_has_size_map url c
    | INVALID =>
      exact ⟨calculate_size_score (estimate_model_size "unknown" "invalid"),
        by simp [score_url]⟩

/-- Witness for C8: a failed analysis record yields the 1000 MB default,
and a concrete invalid dispatch still carries a size-fitness map. -/
theorem size_fitness_always_attached_witness :
    estimate_from_analysis ⟨0, 0, [], false, "unknown", [], some "clone failed"⟩ = 1000 ∧
    ∃ sm, ("size_score", DVal.sizeMap sm) ∈
      (score_url "x" .INVALID none none none).details :=
  ⟨size_fitness_always_attached.1 ⟨0, 0, [], false, "unknown", [], some "clone failed"⟩
      (by simp),
   size_fitness_always_attached.2 "x" .INVALID none none none⟩
